import Mathlib

/-!
Shallow embedding of the Live-Polling backend (Express + Socket.IO server,
src/unnamed/part_000; src/server.js is an older variant of the same file).

The mutable module-level store (currentPoll, students, pollResults, pastPolls,
pollTimeout) is modelled as an explicit `ServerState` record; JavaScript plain
objects used as string-keyed maps are modelled as association lists with the
JavaScript update semantics (assignment to an existing key updates in place,
assignment to a fresh key appends; `Object.values` enumerates in insertion
order).  Each socket event handler becomes a function from the state and the
event payload to the new state paired with the list of emitted events.
`Date.now()` is passed in explicitly as a `now : Nat` argument; the Socket.IO
timer is modelled by the `timerArmed` flag (its firing is the `endPoll` call).
-/

namespace LivePoll

/-- JavaScript `String.prototype.trim()`: strip leading and trailing
whitespace.  (Core `String.trim` is extensionally the same but does not
reduce inside the kernel, so we embed trimming directly.) -/
def jsTrim (s : String) : String :=
  ⟨((s.data.dropWhile Char.isWhitespace).reverse.dropWhile Char.isWhitespace).reverse⟩

/-- JavaScript object read `m[k]`: first entry with the given key. -/
def getKey {α : Type} (m : List (String × α)) (k : String) : Option α :=
  match m.find? (fun p => p.1 == k) with
  | some p => some p.2
  | none => none

/-- JavaScript object write `m[k] = v`: update in place when the key exists,
append otherwise. -/
def setKey {α : Type} (m : List (String × α)) (k : String) (v : α) :
    List (String × α) :=
  if (m.find? (fun p => p.1 == k)).isSome then
    m.map (fun p => if p.1 == k then (k, v) else p)
  else m ++ [(k, v)]

/-- JavaScript `delete m[k]`. -/
def delKey {α : Type} (m : List (String × α)) (k : String) :
    List (String × α) :=
  m.filter (fun p => !(p.1 == k))

/-- `pollResults[answer]++` (the key is always present when `answer` is one of
the active poll options, because the tally was initialized over them). -/
def bumpKey (m : List (String × Nat)) (k : String) : List (String × Nat) :=
  m.map (fun p => if p.1 == k then (p.1, p.2 + 1) else p)

/-- A student record (`students[socket.id]` in the source).  The source also
stores `tabId`, a copy of the socket id used as the key; it is omitted as
redundant. -/
structure Student where
  name : String
  originalName : String
  answered : Bool
  answer : Option String
  joinedAt : Nat
  answeredAt : Option Nat
deriving Repr, DecidableEq

/-- The active poll (`currentPoll`); `createdBy` is the constant string
"teacher" in the source and is omitted. -/
structure Poll where
  question : String
  options : List String
  duration : Nat
  startTime : Nat
deriving Repr, DecidableEq

/-- One entry of `pastPolls`: the spread of the poll plus the snapshot fields
added by `resetPoll`. -/
structure PastPoll where
  question : String
  options : List String
  duration : Nat
  startTime : Nat
  results : List (String × Nat)
  endTime : Nat
  totalStudents : Nat
  answeredStudents : Nat
deriving Repr, DecidableEq

/-- The module-level mutable store of the poll part of the server. -/
structure ServerState where
  currentPoll : Option Poll
  students : List (String × Student)
  pollResults : List (String × Nat)
  pastPolls : List PastPoll
  timerArmed : Bool
deriving Repr, DecidableEq

def initialState : ServerState :=
  { currentPoll := none, students := [], pollResults := [], pastPolls := [],
    timerArmed := false }

/-- Reasons the `teacher_start_poll` handler emits `poll_error`. -/
inductive StartError where
  | validation
  | conflict (unanswered : Nat)
deriving Repr, DecidableEq

/-- Reasons the `submit_answer` handler emits `answer_error`, in the order the
handler tests them. -/
inductive SubmitError where
  | noActivePoll
  | notJoined
  | alreadyAnswered
  | invalidOption
  | expired
deriving Repr, DecidableEq

/-- Outbound socket events of the poll part of the server (payloads reduced to
the fields the development reasons about). -/
inductive Event where
  | joinError
  | joinSuccess (name : String) (originalName : String) (modified : Bool)
  | newQuestion (poll : Poll) (timeRemaining : Option Nat)
  | studentCountUpdate (n : Nat)
  | pollError (e : StartError)
  | pollStarted (poll : Poll)
  | answerError (e : SubmitError)
  | answerSubmitted (answer : String) (results : List (String × Nat))
  | liveResults (results : List (String × Nat)) (totalStudents : Nat)
      (answeredStudents : Nat)
  | pollEnded (results : List (String × Nat)) (question : String)
      (options : List String)
  | pollEndedByTeacher
  | noActivePoll
  | kicked (sockId : String)
  | studentKicked (name : String)
  | kickError
deriving Repr, DecidableEq

/-- The record `resetPoll` pushes onto `pastPolls` when a poll is active. -/
def pastRecord (st : ServerState) (p : Poll) (now : Nat) : PastPoll :=
  { question := p.question, options := p.options, duration := p.duration,
    startTime := p.startTime, results := st.pollResults, endTime := now,
    totalStudents := st.students.length,
    answeredStudents := (st.students.filter (fun q => q.2.answered)).length }

/-- `students[id].answered = false` for every student. -/
def clearAnswered (students : List (String × Student)) :
    List (String × Student) :=
  students.map (fun p => (p.1, { p.2 with answered := false }))

/-- `resetPoll()`: archive the active poll (if any), clear the poll slot and
tally, reset every answered flag, clear the timer. -/
def resetPoll (st : ServerState) (now : Nat) : ServerState :=
  { currentPoll := none,
    students := clearAnswered st.students,
    pollResults := [],
    pastPolls := st.pastPolls ++ (st.currentPoll.map (fun p => pastRecord st p now)).toList,
    timerArmed := false }

/-- `endPoll()`: when a poll is active, broadcast `poll_ended` and reset;
otherwise do nothing.  The poll timeout firing executes exactly this. -/
def endPoll (st : ServerState) (now : Nat) : ServerState × List Event :=
  match st.currentPoll with
  | some p => (resetPoll st now, [Event.pollEnded st.pollResults p.question p.options])
  | none => (st, [])

/-- The name-collision loop of the `join_student` handler:
`while (existingStudents.includes(uniqueName)) { counter++; uniqueName =
base + " (" + counter + ")" }`.  `counter` starts at 1 and the first tried
suffix is `" (2)"`. -/
def candidateName (base : String) (k : Nat) : String :=
  base ++ " (" ++ Nat.repr k ++ ")"

/-- Fuel-indexed form of the collision `while` loop; `existing.length + 1`
fuel always suffices because the candidate strings are pairwise distinct. -/
def resolveLoop (existing : List String) (base : String) :
    Nat → String → Nat → String
  | _, uniqueName, 0 => uniqueName
  | counter, uniqueName, fuel + 1 =>
    if uniqueName ∈ existing then
      resolveLoop existing base (counter + 1) (candidateName base (counter + 1)) fuel
    else uniqueName

def resolveUnique (existing : List String) (base : String) : String :=
  resolveLoop existing base 1 base (existing.length + 1)

/-- Fresh-join branch of `join_student`: a new student keyed by the socket,
with collision-resolved display name. -/
def freshStudent (st : ServerState) (trimmedName : String) (now : Nat) : Student :=
  { name := resolveUnique (st.students.map (fun p => p.2.name)) trimmedName,
    originalName := trimmedName, answered := false, answer := none,
    joinedAt := now, answeredAt := none }

/-- The student stored by `join_student`: re-join updates `name`, `answered`
and `joinedAt` of the existing record in place (note: `originalName` is not
touched and no collision check runs); a fresh socket gets a new record. -/
def joinedStudent (st : ServerState) (sockId trimmedName : String) (now : Nat) :
    Student :=
  match getKey st.students sockId with
  | some stu => { stu with name := trimmedName, answered := false, joinedAt := now }
  | none => freshStudent st trimmedName now

/-- The events emitted by a successful `join_student`: `join_success` (with the
`originalName || name` fallback and the was-modified message), `new_question`
when a poll is active, and the `student_count_update` broadcast. -/
def joinEvents (stu : Student) (trimmedName : String) (st1 : ServerState)
    (now : Nat) : List Event :=
  [Event.joinSuccess stu.name
      (if stu.originalName == "" then stu.name else stu.originalName)
      (stu.name != trimmedName)]
    ++ (match st1.currentPoll with
        | some p => [Event.newQuestion p (some (p.startTime + p.duration * 1000 - now))]
        | none => [])
    ++ [Event.studentCountUpdate st1.students.length]

/-- The `join_student` handler. -/
def joinStudent (st : ServerState) (sockId name : String) (now : Nat) :
    ServerState × List Event :=
  if jsTrim name = "" then (st, [Event.joinError])
  else
    let newStu := joinedStudent st sockId (jsTrim name) now
    let st1 := { st with students := setKey st.students sockId newStu }
    (st1, joinEvents newStu (jsTrim name) st1 now)

/-- Payload of `teacher_start_poll`.  A missing `duration` is `none`; a missing
`options` array behaves like `[]` for the length test. -/
structure PollPayload where
  question : String
  options : List String
  duration : Option Nat
deriving Repr, DecidableEq

/-- JavaScript `pollData.duration || 60`: any falsy duration (absent, null,
`0`) falls back to 60. -/
def jsDuration (d : Option Nat) : Nat :=
  match d with
  | none => 60
  | some v => if v = 0 then 60 else v

/-- The poll constructed by `teacher_start_poll` on success. -/
def mkPoll (payload : PollPayload) (now : Nat) : Poll :=
  { question := jsTrim payload.question,
    options := payload.options.map jsTrim,
    duration := jsDuration payload.duration,
    startTime := now }

/-- `pollResults = {}; options.forEach(o => pollResults[o] = 0)`. -/
def initTally (options : List String) : List (String × Nat) :=
  options.foldl (fun m o => setKey m o 0) []

/-- Number of students with `answered = false`. -/
def unansweredCount (st : ServerState) : Nat :=
  (st.students.filter (fun p => !p.2.answered)).length

/-- The still-active check of `teacher_start_poll`: `some n` means it emits the
conflict `poll_error` carrying `n`. -/
def startConflict (st : ServerState) : Option Nat :=
  match st.currentPoll with
  | none => none
  | some _ => if 0 < unansweredCount st then some (unansweredCount st) else none

/-- State after a successful `teacher_start_poll`: the previous poll is first
archived by `resetPoll`, then the new poll is installed, the tally
zero-initialized over its options, every answered flag reset (again) and the
timer armed. -/
def startSuccessState (st : ServerState) (payload : PollPayload) (now : Nat) :
    ServerState :=
  { currentPoll := some (mkPoll payload now),
    students := clearAnswered (resetPoll st now).students,
    pollResults := initTally (mkPoll payload now).options,
    pastPolls := (resetPoll st now).pastPolls,
    timerArmed := true }

/-- The `teacher_start_poll` handler.  Validation (`!question || !options ||
options.length < 2`) runs first, then the previous-poll conflict check, then
the success path. -/
def teacherStartPoll (st : ServerState) (payload : PollPayload) (now : Nat) :
    ServerState × List Event :=
  if payload.question = "" ∨ payload.options.length < 2 then
    (st, [Event.pollError StartError.validation])
  else
    match startConflict st with
    | some n => (st, [Event.pollError (StartError.conflict n)])
    | none =>
      (startSuccessState st payload now,
       [Event.newQuestion (mkPoll payload now) none,
        Event.pollStarted (mkPoll payload now)])

/-- State after the recording lines of `submit_answer`: the student marked
answered and the tally bumped. -/
def afterAnswerState (st : ServerState) (sockId : String) (stu : Student)
    (answer : String) (now : Nat) : ServerState :=
  { st with
    students := setKey st.students sockId
      { stu with answered := true, answer := some answer, answeredAt := some now },
    pollResults := bumpKey st.pollResults answer }

/-- `answer_submitted` and `live_results` as emitted after recording. -/
def submitEvents (st1 : ServerState) (answer : String) : List Event :=
  [Event.answerSubmitted answer st1.pollResults,
   Event.liveResults st1.pollResults st1.students.length
     ((st1.students.filter (fun p => p.2.answered)).length)]

/-- Tail of the `submit_answer` success path: after emitting, end the poll when
every student has answered and at least one student exists. -/
def submitSuccess (st1 : ServerState) (answer : String) (now : Nat) :
    ServerState × List Event :=
  if (∀ p ∈ st1.students, p.2.answered = true) ∧ st1.students ≠ [] then
    ((endPoll st1 now).1, submitEvents st1 answer ++ (endPoll st1 now).2)
  else (st1, submitEvents st1 answer)

/-- The `submit_answer` handler, guards in source order: no active poll, not
joined, already answered, invalid option, expired; then the success path. -/
def submitAnswer (st : ServerState) (sockId answer : String) (now : Nat) :
    ServerState × List Event :=
  match st.currentPoll with
  | none => (st, [Event.answerError SubmitError.noActivePoll])
  | some poll =>
    match getKey st.students sockId with
    | none => (st, [Event.answerError SubmitError.notJoined])
    | some stu =>
      if stu.answered then (st, [Event.answerError SubmitError.alreadyAnswered])
      else if answer ∉ poll.options then (st, [Event.answerError SubmitError.invalidOption])
      else if poll.duration * 1000 < now - poll.startTime then
        (st, [Event.answerError SubmitError.expired])
      else submitSuccess (afterAnswerState st sockId stu answer now) answer now

/-- The `teacher_end_poll` handler. -/
def teacherEndPoll (st : ServerState) (now : Nat) : ServerState × List Event :=
  match st.currentPoll with
  | some _ => ((endPoll st now).1, (endPoll st now).2 ++ [Event.pollEndedByTeacher])
  | none => (st, [Event.noActivePoll])

/-- The `kick_student` handler: find the first student whose display name
matches, delete it, broadcast the new count.  It does not touch the poll
slot. -/
def kickStudent (st : ServerState) (studentName : String) :
    ServerState × List Event :=
  match st.students.find? (fun p => p.2.name == studentName) with
  | some entry =>
    ({ st with students := delKey st.students entry.1 },
     [Event.kicked entry.1,
      Event.studentCountUpdate (delKey st.students entry.1).length,
      Event.studentKicked studentName])
  | none => (st, [Event.kickError])

/-- The poll-roster part of the `disconnect` handler: delete the student keyed
by the socket, if any.  It does not touch the poll slot. -/
def disconnectStudent (st : ServerState) (sockId : String) :
    ServerState × List Event :=
  match getKey st.students sockId with
  | some _ =>
    ({ st with students := delKey st.students sockId },
     [Event.studentCountUpdate (delKey st.students sockId).length])
  | none => (st, [])

/-- The payload of `server_status` (`get_status` handler). -/
structure StatusView where
  connectedStudents : Nat
  activePoll : Option (String × List String × Nat)
  totalPastPolls : Nat
deriving Repr, DecidableEq

/-- The `get_status` handler (read-only). -/
def getStatus (st : ServerState) (now : Nat) : StatusView :=
  { connectedStudents := st.students.length,
    activePoll := st.currentPoll.map
      (fun p => (p.question, p.options, p.startTime + p.duration * 1000 - now)),
    totalPastPolls := st.pastPolls.length }

/-- A chat participant (`{id: socket.id, name, joinedAt}`). -/
structure ChatParticipant where
  id : String
  name : String
  joinedAt : Nat
deriving Repr, DecidableEq

/-- A chat message.  The source also stores a random numeric `id` and a
locale-formatted `time` string; both are presentation-only and are not
modelled. -/
structure ChatMessage where
  user : String
  message : String
  timestamp : Nat
deriving Repr, DecidableEq

/-- The chat part of the module-level store. -/
structure ChatState where
  chatMessages : List (String × List ChatMessage)
  chatParticipants : List (String × List ChatParticipant)
deriving Repr, DecidableEq

/-- The `join-chat` handler: lazily create the session, append the participant
only when no participant with the same name exists, and return the full stored
message history (sent as `chat-history` to the joiner) plus the updated
participant list (broadcast as `participants-updated`). -/
def joinChat (cs : ChatState) (sessionId user sockId : String) (now : Nat) :
    ChatState × List ChatMessage × List ChatParticipant :=
  let msgs := (getKey cs.chatMessages sessionId).getD []
  let parts := (getKey cs.chatParticipants sessionId).getD []
  let parts2 :=
    if (parts.find? (fun p => p.name == user)).isSome then parts
    else parts ++ [{ id := sockId, name := user, joinedAt := now }]
  ({ chatMessages := setKey cs.chatMessages sessionId msgs,
     chatParticipants := setKey cs.chatParticipants sessionId parts2 },
   msgs, parts2)

/-- The `send-message` handler: append to the session log and return the
message broadcast to the room. -/
def sendMessage (cs : ChatState) (sessionId user message : String) (now : Nat) :
    ChatState × ChatMessage :=
  let msg : ChatMessage := { user := user, message := message, timestamp := now }
  let log := ((getKey cs.chatMessages sessionId).getD []) ++ [msg]
  ({ cs with chatMessages := setKey cs.chatMessages sessionId log }, msg)

/-! ### Decimal printing: `Nat.repr` is injective

The collision loop generates candidates `base`, `base (2)`, `base (3)`, …;
to bound the number of loop iterations by the roster size we need these
candidate strings to be pairwise distinct, which reduces to injectivity of
the decimal printer `Nat.repr`.  We prove it by evaluating the printed digit
string back to the number. -/

/-- Numeric value of a decimal digit character. -/
def digitVal (c : Char) : Nat := c.toNat - 48

/-- Value of a most-significant-first decimal digit string. -/
def digitsVal (l : List Char) : Nat := l.foldl (fun a c => 10 * a + digitVal c) 0

lemma foldl_digitsVal (l : List Char) (a : Nat) :
    l.foldl (fun x c => 10 * x + digitVal c) a = a * 10 ^ l.length + digitsVal l := by
  induction l generalizing a with
  | nil => simp [digitsVal]
  | cons c t ih =>
    simp only [List.foldl_cons, List.length_cons, digitsVal]
    rw [ih (10 * a + digitVal c), ih (10 * 0 + digitVal c)]
    ring

lemma digitsVal_cons (c : Char) (l : List Char) :
    digitsVal (c :: l) = digitVal c * 10 ^ l.length + digitsVal l := by
  have h : digitsVal (c :: l) =
      l.foldl (fun x d => 10 * x + digitVal d) (10 * 0 + digitVal c) := rfl
  rw [h, foldl_digitsVal]
  ring

lemma digitVal_digitChar (d : Nat) (h : d < 10) :
    digitVal (Nat.digitChar d) = d := by
  interval_cases d <;> rfl

lemma toDigitsCore_val :
    ∀ (fuel n : Nat) (ds : List Char), n < 10 ^ fuel →
      digitsVal (Nat.toDigitsCore 10 fuel n ds) = n * 10 ^ ds.length + digitsVal ds := by
  intro fuel
  induction fuel with
  | zero =>
    intro n ds h
    have hn : n = 0 := by simpa using h
    simp [Nat.toDigitsCore, hn]
  | succ f ih =>
    intro n ds h
    have hmod : n % 10 < 10 := Nat.mod_lt _ (by norm_num)
    by_cases h0 : n / 10 = 0
    · have hn : n < 10 := by omega
      simp only [Nat.toDigitsCore, h0, if_pos]
      rw [digitsVal_cons, digitVal_digitChar _ hmod, Nat.mod_eq_of_lt hn]
    · have hdiv : n / 10 < 10 ^ f := by
        apply Nat.div_lt_of_lt_mul
        calc n < 10 ^ (f + 1) := h
        _ = 10 * 10 ^ f := by ring
      simp only [Nat.toDigitsCore]
      rw [if_neg h0]
      rw [ih (n / 10) (Nat.digitChar (n % 10) :: ds) hdiv]
      rw [digitsVal_cons, digitVal_digitChar _ hmod]
      have hsplit : 10 * (n / 10) + n % 10 = n := Nat.div_add_mod n 10
      simp only [List.length_cons]
      conv_rhs => rw [← hsplit]
      ring

lemma digitsVal_toDigits (n : Nat) : digitsVal (Nat.toDigits 10 n) = n := by
  have h : n < 10 ^ (n + 1) :=
    lt_of_lt_of_le (Nat.lt_pow_self (by norm_num) n)
      (Nat.pow_le_pow_right (by norm_num) (Nat.le_succ n))
  simpa [Nat.toDigits, digitsVal] using toDigitsCore_val (n + 1) n [] h

lemma string_data_inj {s t : String} (h : s.data = t.data) : s = t := by
  cases s
  cases t
  exact congrArg String.mk h

lemma repr_inj {m n : Nat} (h : Nat.repr m = Nat.repr n) : m = n := by
  have hd : Nat.toDigits 10 m = Nat.toDigits 10 n := by
    have h2 := congrArg String.data h
    simpa [Nat.repr, List.asString] using h2
  have hm := digitsVal_toDigits m
  rw [hd, digitsVal_toDigits] at hm
  exact hm.symm

lemma candidateName_inj {base : String} {i j : Nat}
    (h : candidateName base i = candidateName base j) : i = j := by
  have hd := congrArg String.data h
  simp only [candidateName, String.data_append, List.append_assoc] at hd
  have h1 := List.append_cancel_left hd
  have h2 := List.append_cancel_left h1
  have h3 := List.append_cancel_right h2
  exact repr_inj (string_data_inj h3)

lemma base_ne_candidateName (base : String) (j : Nat) :
    base ≠ candidateName base j := by
  intro h
  have hl := congrArg String.length h
  simp only [candidateName, String.length_append] at hl
  have h2 : (" (" : String).length = 2 := rfl
  have h3 : (")" : String).length = 1 := rfl
  omega

/-! ### Association-list lemmas -/

lemma getKey_setKey {α : Type} (m : List (String × α)) (k : String) (v : α) :
    getKey (setKey m k v) k = some v := by
  induction m with
  | nil => simp [setKey, getKey]
  | cons p t ih =>
    by_cases hp : p.1 = k
    · simp [setKey, getKey, List.find?, hp]
    · have hp2 : (p.1 == k) = false := by simpa using hp
      cases hf : (t.find? (fun q => q.1 == k)).isSome
      · have hstep : setKey (p :: t) k v = p :: (t ++ [(k, v)]) := by
          simp [setKey, List.find?, hp2, hf]
        have hstept : setKey t k v = t ++ [(k, v)] := by
          simp [setKey, hf]
        rw [hstep]
        rw [hstept] at ih
        simpa [getKey, List.find?, hp2] using ih
      · have hstep : setKey (p :: t) k v =
            p :: t.map (fun q => if q.1 == k then (k, v) else q) := by
          simp [setKey, List.find?, hp2, hf, hp]
        have hstept : setKey t k v = t.map (fun q => if q.1 == k then (k, v) else q) := by
          simp [setKey, hf]
        rw [hstep]
        rw [hstept] at ih
        simpa [getKey, List.find?, hp2] using ih

lemma setKey_ne_nil {α : Type} (m : List (String × α)) (k : String) (v : α) :
    setKey m k v ≠ [] := by
  unfold setKey
  split
  · rename_i hsome
    cases m with
    | nil => simp at hsome
    | cons p t => simp
  · simp

lemma setKey_all_answered (m : List (String × Student)) (k : String) (s2 : Student)
    (h2 : s2.answered = true)
    (hall : ∀ p ∈ m, p.1 ≠ k → p.2.answered = true) :
    ∀ p ∈ setKey m k s2, p.2.answered = true := by
  intro p hp
  by_cases hfind : (m.find? (fun q => q.1 == k)).isSome
  · rw [setKey, if_pos hfind] at hp
    rcases List.mem_map.mp hp with ⟨q, hq, hqp⟩
    by_cases hqk : q.1 = k
    · have : (q.1 == k) = true := by simpa using hqk
      rw [if_pos this] at hqp
      rw [← hqp]
      exact h2
    · have : (q.1 == k) = false := by simpa using hqk
      rw [if_neg (by simp [this])] at hqp
      rw [← hqp]
      exact hall q hq hqk
  · rw [setKey, if_neg hfind] at hp
    rcases List.mem_append.mp hp with h | h
    · refine hall p h ?_
      intro hk
      apply hfind
      rw [List.find?_isSome]
      exact ⟨p, h, by simp [hk]⟩
    · have : p = (k, s2) := by simpa using h
      rw [this]
      exact h2

/-! ### Correctness of the collision loop -/

lemma resolveLoop_spec (existing : List String) (base : String) :
    ∀ (fuel c k : Nat), 2 ≤ c → c ≤ k →
      (∀ j, c ≤ j → j < k → candidateName base j ∈ existing) →
      candidateName base k ∉ existing →
      k - c < fuel →
      resolveLoop existing base c (candidateName base c) fuel = candidateName base k := by
  intro fuel
  induction fuel with
  | zero => omega
  | succ f ih =>
    intro c k hc hck hmem hfree hfuel
    by_cases hck2 : c = k
    · subst hck2
      simp [resolveLoop, hfree]
    · have hlt : c < k := by omega
      have hin : candidateName base c ∈ existing := hmem c le_rfl hlt
      rw [resolveLoop, if_pos hin]
      exact ih (c + 1) k (by omega) (by omega)
        (fun j hj1 hj2 => hmem j (by omega) hj2) hfree (by omega)

/-- The subset of candidates forced into `existing` by the hypotheses of the
uniqueness theorem is pairwise distinct, bounding the roster size below. -/
lemma candidates_length_le (existing : List String) (base : String) (k : Nat)
    (hk : 2 ≤ k) (hbase : base ∈ existing)
    (hmem : ∀ j, 2 ≤ j → j < k → candidateName base j ∈ existing) :
    k - 1 ≤ existing.length := by
  classical
  set L : List String := base :: (List.range' 2 (k - 2)).map (candidateName base) with hL
  have hrange : ∀ j, j ∈ List.range' 2 (k - 2) ↔ 2 ≤ j ∧ j < k := by
    intro j
    rw [List.mem_range']
    constructor
    · rintro ⟨i, hi, rfl⟩
      omega
    · intro hj
      exact ⟨j - 2, by omega, by omega⟩
  have hnd : L.Nodup := by
    rw [hL, List.nodup_cons]
    constructor
    · intro hmemL
      rcases List.mem_map.mp hmemL with ⟨j, _, hj⟩
      exact base_ne_candidateName base j hj.symm
    · refine List.Nodup.map ?_ ?_
      · intro i j hij
        exact candidateName_inj hij
      · exact List.nodup_range' 2 (k - 2)
  have hsub : ∀ x ∈ L, x ∈ existing := by
    intro x hx
    rw [hL] at hx
    rcases List.mem_cons.mp hx with rfl | hx2
    · exact hbase
    · rcases List.mem_map.mp hx2 with ⟨j, hj, rfl⟩
      rcases (hrange j).mp hj with ⟨hj1, hj2⟩
      exact hmem j hj1 hj2
  have hlen : L.length = k - 1 := by
    rw [hL]
    simp [List.length_range']
    omega
  have hcard : L.length ≤ existing.length := by
    calc L.length = L.toFinset.card := (List.toFinset_card_of_nodup hnd).symm
    _ ≤ existing.toFinset.card := by
        apply Finset.card_le_card
        intro x hx
        rw [List.mem_toFinset] at hx ⊢
        exact hsub x hx
    _ ≤ existing.length := existing.toFinset_card_le
  omega

/-- Main correctness statement of the collision resolution: if the trimmed
base name collides, the result is the base suffixed with the first free
counter value, counting up from 2. -/
lemma resolveUnique_eq (existing : List String) (base : String) (k : Nat)
    (hk : 2 ≤ k) (hbase : base ∈ existing)
    (hmem : ∀ j, 2 ≤ j → j < k → candidateName base j ∈ existing)
    (hfree : candidateName base k ∉ existing) :
    resolveUnique existing base = candidateName base k := by
  have hlen : k - 1 ≤ existing.length := candidates_length_le existing base k hk hbase hmem
  have hpos : 1 ≤ existing.length := List.length_pos.mpr (List.ne_nil_of_mem hbase)
  rw [resolveUnique]
  obtain ⟨m, hm⟩ : ∃ m, existing.length = m + 1 := ⟨existing.length - 1, by omega⟩
  rw [hm]
  rw [resolveLoop, if_pos hbase]
  exact resolveLoop_spec existing base (m + 1) 2 k le_rfl hk hmem hfree (by omega)

/-! ### Claim theorems -/

/-- C1 (amended): once a Participant's hasAnswered flag is true, a further
submit during an Active Poll fails with AlreadyAnsweredError and leaves the
whole server state (in particular the Tally) exactly as it was.  (The original
claim additionally asserted at most one successful submit per Poll lifetime;
that part fails because a re-join resets the flag, see the counterexample.) -/
theorem C1_already_answered_rejected (st : ServerState) (sockId answer : String)
    (now : Nat) (poll : Poll) (stu : Student)
    (hpoll : st.currentPoll = some poll)
    (hstu : getKey st.students sockId = some stu)
    (hans : stu.answered = true) :
    submitAnswer st sockId answer now
      = (st, [Event.answerError SubmitError.alreadyAnswered]) := by
  simp [submitAnswer, hpoll, hstu, hans]

/-- C1 witness: a concrete rejected second submit that changes nothing. -/
theorem C1_already_answered_rejected_witness :
    submitAnswer
        ⟨some ⟨"Q", ["A", "B"], 60, 0⟩,
         [("s1", ⟨"Ann", "Ann", true, some "A", 0, some 1⟩)],
         [("A", 1), ("B", 0)], [], true⟩ "s1" "B" 5
      = (⟨some ⟨"Q", ["A", "B"], 60, 0⟩,
          [("s1", ⟨"Ann", "Ann", true, some "A", 0, some 1⟩)],
          [("A", 1), ("B", 0)], [], true⟩,
         [Event.answerError SubmitError.alreadyAnswered]) :=
  C1_already_answered_rejected _ "s1" "B" 5 ⟨"Q", ["A", "B"], 60, 0⟩
    ⟨"Ann", "Ann", true, some "A", 0, some 1⟩ rfl (by decide) rfl

/-- C1 counterexample: within a single Poll lifetime the same socket submits
successfully twice — the first submit records the answer, a mid-poll re-join
resets the answered flag, and the second submit is accepted again, bumping the
tally for "A" to 2 while the poll stays active throughout. -/
theorem C1_counterexample :
    let st3 := (teacherStartPoll
      (joinStudent (joinStudent initialState "s1" "Sam" 0).1 "s2" "Bob" 0).1
      ⟨"Q", ["A", "B"], some 60⟩ 0).1
    let r4 := submitAnswer st3 "s1" "A" 1
    let st5 := (joinStudent r4.1 "s1" "Sam" 2).1
    let r6 := submitAnswer st5 "s1" "A" 3
    r4.2.head? = some (Event.answerSubmitted "A" [("A", 1), ("B", 0)])
    ∧ r6.2.head? = some (Event.answerSubmitted "A" [("A", 2), ("B", 0)])
    ∧ st5.currentPoll = st3.currentPoll
    ∧ st3.currentPoll ≠ none
    ∧ getKey r6.1.pollResults "A" = some 2 := by
  decide

/-- C2 (amended): teacher_start_poll fails with the validation poll_error,
changing no state, exactly when the question is empty or fewer than 2 options
are supplied, where options are counted as raw list entries — distinctness
after trimming is not checked. -/
theorem C2_validation_iff (st : ServerState) (payload : PollPayload) (now : Nat) :
    teacherStartPoll st payload now = (st, [Event.pollError StartError.validation])
      ↔ (payload.question = "" ∨ payload.options.length < 2) := by
  constructor
  · intro h
    by_contra hc
    rw [teacherStartPoll, if_neg hc] at h
    cases hconf : startConflict st with
    | some n => rw [hconf] at h; simp at h
    | none => rw [hconf] at h; simp at h
  · intro h
    rw [teacherStartPoll, if_pos h]

/-- C2 counterexample: the payload `{question := "Q", options := ["a", "a"]}`
has only one distinct trimmed option, yet validation passes and the poll is
started. -/
theorem C2_counterexample :
    ((["a", "a"].map jsTrim).dedup.length < 2)
    ∧ teacherStartPoll initialState ⟨"Q", ["a", "a"], none⟩ 0
        ≠ (initialState, [Event.pollError StartError.validation])
    ∧ (teacherStartPoll initialState ⟨"Q", ["a", "a"], none⟩ 0).1.currentPoll
        = some ⟨"Q", ["a", "a"], 60, 0⟩ := by
  decide

/-- C5 (amended): kick_student, disconnect and join_student never change the
active-poll slot; in particular removing the last unanswered student does not
complete the poll — the all-answered completion check runs only inside
submit_answer. -/
theorem C5_no_completion_outside_submit (st : ServerState)
    (sname sockId jname : String) (now : Nat) :
    (kickStudent st sname).1.currentPoll = st.currentPoll
    ∧ (disconnectStudent st sockId).1.currentPoll = st.currentPoll
    ∧ (joinStudent st sockId jname now).1.currentPoll = st.currentPoll := by
  refine ⟨?_, ?_, ?_⟩
  · rw [kickStudent]
    cases h : st.students.find? (fun p => p.2.name == sname) <;> simp
  · rw [disconnectStudent]
    cases h : getKey st.students sockId <;> simp
  · rw [joinStudent]
    split <;> simp

/-- C5 counterexample: with an active poll and students Ann (answered) and Bob
(not answered), kicking Bob leaves every remaining registered student with
hasAnswered = true and the roster non-empty, yet the poll stays Active — no
transition out of Active occurs. -/
theorem C5_counterexample :
    let stC : ServerState :=
      ⟨some ⟨"Q", ["A", "B"], 60, 0⟩,
       [("s1", ⟨"Ann", "Ann", true, some "A", 0, some 1⟩),
        ("s2", ⟨"Bob", "Bob", false, none, 0, none⟩)],
       [("A", 1), ("B", 0)], [], true⟩
    ((kickStudent stC "Bob").1.students.all (fun p => p.2.answered) = true)
    ∧ (kickStudent stC "Bob").1.students ≠ []
    ∧ (kickStudent stC "Bob").1.currentPoll = some ⟨"Q", ["A", "B"], 60, 0⟩ := by
  decide

/-- C7 (amended): a join_student from a socket that already has a student
updates the record in place — displayName becomes the new trimmed requested
name while originalName is left unchanged, hasAnswered is reset, joinedAt
refreshed, no collision check is run, the rest of the state is untouched —
and join_success reports the new trimmed name (not the previous resolved
name). -/
theorem C7_rejoin_updates_in_place (st : ServerState) (sockId name : String)
    (now : Nat) (stu : Student)
    (hstu : getKey st.students sockId = some stu)
    (hname : jsTrim name ≠ "") :
    (joinStudent st sockId name now).1
      = { st with students := setKey st.students sockId { stu with name := jsTrim name, answered := false, joinedAt := now } }
    ∧ (joinStudent st sockId name now).2.head?
      = some (Event.joinSuccess (jsTrim name)
          (if stu.originalName == "" then jsTrim name else stu.originalName)
          false) := by
  rw [joinStudent, if_neg hname]
  constructor
  · simp [joinedStudent, hstu]
  · simp [joinedStudent, hstu, joinEvents]

/-- C7 witness: a concrete in-place re-join. -/
theorem C7_rejoin_updates_in_place_witness :
    (joinStudent ⟨none, [("s1", ⟨"Sam", "Sam", false, none, 0, none⟩)], [], [], false⟩
        "s1" "Bob" 5).1
      = { currentPoll := none,
          students := setKey [("s1", ⟨"Sam", "Sam", false, none, 0, none⟩)] "s1"
            ⟨jsTrim "Bob", "Sam", false, none, 5, none⟩,
          pollResults := [], pastPolls := [], timerArmed := false }
    ∧ (joinStudent ⟨none, [("s1", ⟨"Sam", "Sam", false, none, 0, none⟩)], [], [], false⟩
        "s1" "Bob" 5).2.head?
      = some (Event.joinSuccess (jsTrim "Bob")
          (if ("Sam" : String) == "" then jsTrim "Bob" else "Sam") false) :=
  C7_rejoin_updates_in_place
    ⟨none, [("s1", ⟨"Sam", "Sam", false, none, 0, none⟩)], [], [], false⟩
    "s1" "Bob" 5 ⟨"Sam", "Sam", false, none, 0, none⟩ (by decide) (by decide)

/-- C7 counterexample: re-joining socket s1 (resolved name "Sam") with the new
name "Bob" stores `originalName = "Sam"` (not the new requested name, contrary
to the claim) and returns "Bob" (the new name, not the previously resolved
name "Sam"). -/
theorem C7_counterexample :
    joinStudent ⟨none, [("s1", ⟨"Sam", "Sam", false, none, 0, none⟩)], [], [], false⟩
        "s1" "Bob" 5
      = (⟨none, [("s1", ⟨"Bob", "Sam", false, none, 5, none⟩)], [], [], false⟩,
         [Event.joinSuccess "Bob" "Sam" false, Event.studentCountUpdate 1])
    ∧ ("Sam" : String) ≠ "Bob" := by
  decide

lemma endPoll_of_none (st : ServerState) (now : Nat) (h : st.currentPoll = none) :
    endPoll st now = (st, []) := by
  rw [endPoll, h]

lemma teacherEndPoll_of_none (st : ServerState) (now : Nat)
    (h : st.currentPoll = none) :
    teacherEndPoll st now = (st, [Event.noActivePoll]) := by
  rw [teacherEndPoll, h]

lemma endPoll_currentPoll_none (st : ServerState) (now : Nat) :
    (endPoll st now).1.currentPoll = none := by
  rw [endPoll]
  cases hcp : st.currentPoll with
  | none => exact hcp
  | some p => rfl

/-- C8: endPoll in the Idle state is a no-op with no broadcast and no history
append; after any completion the state is Idle again, so a later timer firing
(endPoll) or explicit teacher_end_poll changes nothing. -/
theorem C8_complete_once (st : ServerState) (now now2 : Nat) :
    (st.currentPoll = none → endPoll st now = (st, []))
    ∧ endPoll (endPoll st now).1 now2 = ((endPoll st now).1, [])
    ∧ (st.currentPoll = none → teacherEndPoll st now = (st, [Event.noActivePoll]))
    ∧ teacherEndPoll (endPoll st now).1 now2
        = ((endPoll st now).1, [Event.noActivePoll]) :=
  ⟨fun h => endPoll_of_none st now h,
   endPoll_of_none _ now2 (endPoll_currentPoll_none st now),
   fun h => teacherEndPoll_of_none st now h,
   teacherEndPoll_of_none _ now2 (endPoll_currentPoll_none st now)⟩

/-- C8 witness: concrete instance at an Idle state and after a completion. -/
theorem C8_complete_once_witness :
    ((initialState : ServerState).currentPoll = none →
        endPoll initialState 1 = (initialState, []))
    ∧ endPoll (endPoll initialState 1).1 2 = ((endPoll initialState 1).1, [])
    ∧ ((initialState : ServerState).currentPoll = none →
        teacherEndPoll initialState 1 = (initialState, [Event.noActivePoll]))
    ∧ teacherEndPoll (endPoll initialState 1).1 2
        = ((endPoll initialState 1).1, [Event.noActivePoll]) :=
  C8_complete_once initialState 1 2

/-- C3: with a payload passing validation, teacher_start_poll fails with the
conflict poll_error carrying the number of unanswered students — changing no
state — whenever a poll is Active and some registered student has not
answered; when no poll is Active or every student has answered it succeeds,
and an Active poll is archived onto pastPolls (never discarded) before the
new poll is installed. -/
theorem C3_conflict_or_archive (st : ServerState) (payload : PollPayload)
    (now : Nat) (hq : payload.question ≠ "") (ho : 2 ≤ payload.options.length) :
    (∀ p, st.currentPoll = some p → 0 < unansweredCount st →
        teacherStartPoll st payload now
          = (st, [Event.pollError (StartError.conflict (unansweredCount st))]))
    ∧ ((st.currentPoll = none ∨ unansweredCount st = 0) →
        (teacherStartPoll st payload now).1.currentPoll = some (mkPoll payload now)
        ∧ (teacherStartPoll st payload now).1.pastPolls
            = st.pastPolls ++ (st.currentPoll.map (fun p => pastRecord st p now)).toList) := by
  have hval : ¬(payload.question = "" ∨ payload.options.length < 2) := by
    rintro (h | h)
    · exact hq h
    · omega
  constructor
  · intro p hp hcount
    have hconf : startConflict st = some (unansweredCount st) := by
      simp [startConflict, hp, hcount]
    rw [teacherStartPoll, if_neg hval, hconf]
  · intro hdone
    have hconf : startConflict st = none := by
      rcases hdone with h | h
      · simp [startConflict, h]
      · cases hcp : st.currentPoll <;> simp [startConflict, hcp, h]
    rw [teacherStartPoll, if_neg hval, hconf]
    exact ⟨rfl, rfl⟩

/-- C3 witness: a concrete conflict — an active poll with one unanswered
student rejects a valid new payload with the conflict error carrying 1. -/
theorem C3_conflict_or_archive_witness :
    teacherStartPoll
        ⟨some ⟨"Q", ["A", "B"], 60, 0⟩, [("s1", ⟨"Ann", "Ann", false, none, 0, none⟩)], [("A", 0), ("B", 0)], [], true⟩
        ⟨"R", ["X", "Y"], none⟩ 9
      = (⟨some ⟨"Q", ["A", "B"], 60, 0⟩, [("s1", ⟨"Ann", "Ann", false, none, 0, none⟩)], [("A", 0), ("B", 0)], [], true⟩,
         [Event.pollError (StartError.conflict 1)]) :=
  (C3_conflict_or_archive
    ⟨some ⟨"Q", ["A", "B"], 60, 0⟩, [("s1", ⟨"Ann", "Ann", false, none, 0, none⟩)], [("A", 0), ("B", 0)], [], true⟩
    ⟨"R", ["X", "Y"], none⟩ 9 (by decide) (by decide)).1
    ⟨"Q", ["A", "B"], 60, 0⟩ rfl (by decide)

/-- C4: when a submit succeeds and afterwards every registered student has
answered (the submitter was the last one; at least one student exists because
the submitter is registered), the poll is completed at once: a poll_ended
broadcast is among the emitted events, the state is Idle (get_status reports
no active poll), and exactly one record is appended to the history, with
answeredStudents equal to totalStudents. -/
theorem C4_last_submit_completes (st : ServerState) (sockId answer : String)
    (now : Nat) (poll : Poll) (stu : Student)
    (hpoll : st.currentPoll = some poll)
    (hstu : getKey st.students sockId = some stu)
    (hans : stu.answered = false)
    (hopt : answer ∈ poll.options)
    (hexp : now - poll.startTime ≤ poll.duration * 1000)
    (hall : ∀ p ∈ st.students, p.1 ≠ sockId → p.2.answered = true) :
    (∃ res q o, Event.pollEnded res q o ∈ (submitAnswer st sockId answer now).2)
    ∧ (submitAnswer st sockId answer now).1.currentPoll = none
    ∧ (getStatus (submitAnswer st sockId answer now).1 now).activePoll = none
    ∧ ∃ rec, (submitAnswer st sockId answer now).1.pastPolls = st.pastPolls ++ [rec]
        ∧ rec.answeredStudents = rec.totalStudents := by
  have hexp2 : ¬(poll.duration * 1000 < now - poll.startTime) := by omega
  have hred : submitAnswer st sockId answer now
      = submitSuccess (afterAnswerState st sockId stu answer now) answer now := by
    simp [submitAnswer, hpoll, hstu, hans, hopt, hexp2]
  have hallans : ∀ p ∈ (afterAnswerState st sockId stu answer now).students,
      p.2.answered = true :=
    setKey_all_answered st.students sockId _ rfl hall
  have hne : (afterAnswerState st sockId stu answer now).students ≠ [] :=
    setKey_ne_nil st.students sockId _
  have hcp : (afterAnswerState st sockId stu answer now).currentPoll = some poll := hpoll
  have hsucc : submitSuccess (afterAnswerState st sockId stu answer now) answer now
      = ((resetPoll (afterAnswerState st sockId stu answer now) now),
         submitEvents (afterAnswerState st sockId stu answer now) answer
           ++ [Event.pollEnded (afterAnswerState st sockId stu answer now).pollResults
                poll.question poll.options]) := by
    rw [submitSuccess, if_pos ⟨hallans, hne⟩, endPoll, hcp]
  rw [hred, hsucc]
  refine ⟨⟨(afterAnswerState st sockId stu answer now).pollResults, poll.question,
      poll.options, by simp⟩, rfl, rfl, ?_⟩
  refine ⟨pastRecord (afterAnswerState st sockId stu answer now) poll now, ?_, ?_⟩
  · simp [resetPoll, hcp, afterAnswerState, hpoll]
  · have hfilter : (afterAnswerState st sockId stu answer now).students.filter
        (fun q => q.2.answered) = (afterAnswerState st sockId stu answer now).students :=
      List.filter_eq_self.mpr hallans
    simp [pastRecord, hfilter]

/-- C4 witness: the single registered student submits the last missing answer
and the poll completes with a full history record. -/
theorem C4_last_submit_completes_witness :
    (∃ res q o, Event.pollEnded res q o ∈ (submitAnswer ⟨some ⟨"Q", ["A", "B"], 60, 0⟩, [("s1", ⟨"Ann", "Ann", false, none, 0, none⟩)], [("A", 0), ("B", 0)], [], true⟩ "s1" "A" 5).2)
    ∧ (submitAnswer ⟨some ⟨"Q", ["A", "B"], 60, 0⟩, [("s1", ⟨"Ann", "Ann", false, none, 0, none⟩)], [("A", 0), ("B", 0)], [], true⟩ "s1" "A" 5).1.currentPoll = none
    ∧ (getStatus (submitAnswer ⟨some ⟨"Q", ["A", "B"], 60, 0⟩, [("s1", ⟨"Ann", "Ann", false, none, 0, none⟩)], [("A", 0), ("B", 0)], [], true⟩ "s1" "A" 5).1 5).activePoll = none
    ∧ ∃ rec, (submitAnswer ⟨some ⟨"Q", ["A", "B"], 60, 0⟩, [("s1", ⟨"Ann", "Ann", false, none, 0, none⟩)], [("A", 0), ("B", 0)], [], true⟩ "s1" "A" 5).1.pastPolls = [] ++ [rec]
        ∧ rec.answeredStudents = rec.totalStudents :=
  C4_last_submit_completes
    ⟨some ⟨"Q", ["A", "B"], 60, 0⟩, [("s1", ⟨"Ann", "Ann", false, none, 0, none⟩)], [("A", 0), ("B", 0)], [], true⟩
    "s1" "A" 5 ⟨"Q", ["A", "B"], 60, 0⟩ ⟨"Ann", "Ann", false, none, 0, none⟩
    rfl (by decide) rfl (by decide) (by decide) (by decide)

/-- C6: when a fresh socket registers and the trimmed requested name collides,
the resolved display name is the requested name suffixed with " (k)" for the
first counter value k, counting 2, 3, … upward, that does not collide.  The
hypotheses constrain only which display names are present in the roster, so
the result is independent of the order in which the earlier students
joined. -/
theorem C6_collision_suffix (st : ServerState) (sockId name : String)
    (now k : Nat)
    (hfresh : getKey st.students sockId = none)
    (hname : jsTrim name ≠ "")
    (hk : 2 ≤ k)
    (hbase : jsTrim name ∈ st.students.map (fun p => p.2.name))
    (hmem : ∀ j ∈ List.range' 2 (k - 2),
        candidateName (jsTrim name) j ∈ st.students.map (fun p => p.2.name))
    (hfree : candidateName (jsTrim name) k ∉ st.students.map (fun p => p.2.name)) :
    getKey (joinStudent st sockId name now).1.students sockId
      = some { name := candidateName (jsTrim name) k, originalName := jsTrim name,
               answered := false, answer := none, joinedAt := now,
               answeredAt := none } := by
  have hres : resolveUnique (st.students.map (fun p => p.2.name)) (jsTrim name)
      = candidateName (jsTrim name) k := by
    refine resolveUnique_eq _ _ k hk hbase ?_ hfree
    intro j hj1 hj2
    refine hmem j ?_
    rw [List.mem_range']
    exact ⟨j - 2, by omega, by omega⟩
  have hjs : joinedStudent st sockId (jsTrim name) now
      = freshStudent st (jsTrim name) now := by
    rw [joinedStudent, hfresh]
  rw [joinStudent, if_neg hname]
  simp only [hjs]
  rw [getKey_setKey, freshStudent, hres]

/-- C6 witness: with "Sam" and "Sam (2)" taken, a fresh "Sam" join resolves to
"Sam (3)". -/
theorem C6_collision_suffix_witness :
    getKey (joinStudent ⟨none, [("a", ⟨"Sam", "Sam", false, none, 0, none⟩), ("b", ⟨"Sam (2)", "Sam", false, none, 0, none⟩)], [], [], false⟩ "c" "Sam" 7).1.students "c"
      = some { name := candidateName (jsTrim "Sam") 3, originalName := jsTrim "Sam",
               answered := false, answer := none, joinedAt := 7,
               answeredAt := none } :=
  C6_collision_suffix
    ⟨none, [("a", ⟨"Sam", "Sam", false, none, 0, none⟩), ("b", ⟨"Sam (2)", "Sam", false, none, 0, none⟩)], [], [], false⟩
    "c" "Sam" 7 3 (by decide) (by decide) (by decide) (by decide) (by decide)
    (by decide)

/-- C9: join-chat is idempotent with respect to the participant name — a join
whose name is already present neither appends a duplicate participant nor
updates the stored connection — and every join returns the full stored
message history, which send-message extends at the end (so the history is in
append order, oldest first). -/
theorem C9_chat_join_idempotent (cs : ChatState) (sid user sock u2 m : String)
    (now now2 : Nat) :
    (joinChat cs sid user sock now).2.1 = (getKey cs.chatMessages sid).getD []
    ∧ (user ∈ ((getKey cs.chatParticipants sid).getD []).map ChatParticipant.name →
        (joinChat cs sid user sock now).2.2 = (getKey cs.chatParticipants sid).getD []
        ∧ getKey (joinChat cs sid user sock now).1.chatParticipants sid
            = some ((getKey cs.chatParticipants sid).getD []))
    ∧ getKey (sendMessage cs sid u2 m now2).1.chatMessages sid
        = some ((getKey cs.chatMessages sid).getD [] ++ [⟨u2, m, now2⟩]) := by
  refine ⟨rfl, ?_, ?_⟩
  · intro hmem
    have hfind : (((getKey cs.chatParticipants sid).getD []).find?
        (fun p => p.name == user)).isSome := by
      rw [List.find?_isSome]
      rcases List.mem_map.mp hmem with ⟨p, hp, hname⟩
      exact ⟨p, hp, by simp [hname]⟩
    constructor
    · simp [joinChat, hfind]
    · simp [joinChat, hfind, getKey_setKey]
  · simp [sendMessage, getKey_setKey]

/-- C9 witness: "Ann" is already a member of room1, so a second join by "Ann"
from a different connection leaves the member list unchanged. -/
theorem C9_chat_join_idempotent_witness :
    (joinChat ⟨[("room1", [⟨"Ann", "hi", 1⟩])], [("room1", [⟨"x", "Ann", 0⟩])]⟩ "room1" "Ann" "y" 5).2.2 = [⟨"x", "Ann", 0⟩]
    ∧ getKey (joinChat ⟨[("room1", [⟨"Ann", "hi", 1⟩])], [("room1", [⟨"x", "Ann", 0⟩])]⟩ "room1" "Ann" "y" 5).1.chatParticipants "room1"
        = some [⟨"x", "Ann", 0⟩] :=
  (C9_chat_join_idempotent ⟨[("room1", [⟨"Ann", "hi", 1⟩])], [("room1", [⟨"x", "Ann", 0⟩])]⟩
    "room1" "Ann" "y" "Bob" "msg" 5 6).2.1 (by decide)

/-- C10: a start payload whose duration is 0 behaves exactly like one with the
duration omitted — the constructed poll (which drives the timer and all
expiry arithmetic) gets durationSeconds 60, so a zero-duration poll cannot be
created. -/
theorem C10_zero_duration_defaults (st : ServerState) (payload : PollPayload)
    (now : Nat) (h0 : payload.duration = some 0) :
    teacherStartPoll st payload now
      = teacherStartPoll st { payload with duration := none } now
    ∧ (mkPoll payload now).duration = 60 := by
  have hmk : mkPoll payload now = mkPoll { payload with duration := none } now := by
    simp [mkPoll, jsDuration, h0]
  constructor
  · simp [teacherStartPoll, startSuccessState, hmk]
  · simp [mkPoll, jsDuration, h0]

/-- C10 witness: a concrete zero-duration payload. -/
theorem C10_zero_duration_defaults_witness :
    teacherStartPoll initialState ⟨"Q", ["A", "B"], some 0⟩ 3
      = teacherStartPoll initialState ⟨"Q", ["A", "B"], none⟩ 3
    ∧ (mkPoll ⟨"Q", ["A", "B"], some 0⟩ 3).duration = 60 :=
  C10_zero_duration_defaults initialState ⟨"Q", ["A", "B"], some 0⟩ 3 rfl

end LivePoll
